import Mathlib

/-!
Shallow embedding of `src/index.ts` (class `DpsConfig`) from the
`dimensionalpocket/dps-config` repository, together with theorems checking the
natural-language specification against it.

The process environment is modelled as a partial map from variable names to
string values.  JavaScript `undefined` becomes `Option.none`; the class fields
(all optional in the source) become `Option`-valued structure fields; the
constructor becomes `DpsConfig.ofEnv`, explicitly parameterised by the
environment snapshot it reads.  The platform primitives used by the source
(`parseInt(·, 10)`, `TextEncoder`/`TextDecoder`) are modelled arithmetically
below.
-/

namespace DpsConfigModel

/-- A snapshot of `process.env`: `none` models an absent variable. -/
def Env : Type := String → Option String

/-- Pointwise update of an environment at a single variable name. -/
def Env.override (env : Env) (k : String) (v : Option String) : Env :=
  fun x => if x = k then v else env x

/-- Whitespace accepted by ECMAScript `parseInt` before the number
(space, tab, line feed, carriage return, vertical tab, form feed). -/
def isJsSpace (c : Char) : Bool :=
  c == ' ' || c == '\t' || c == '\n' || c == '\r' ||
  c == Char.ofNat 11 || c == Char.ofNat 12

/-- Value of a list of decimal digit characters, most significant first. -/
def digitCharsVal (cs : List Char) : Nat :=
  cs.foldl (fun acc c => acc * 10 + (c.toNat - 48)) 0

/-- Model of JavaScript `parseInt(s, 10)`: skip leading whitespace, read an
optional sign, then the longest prefix of decimal digits; `none` models the
`NaN` result produced when no digit is found. -/
def jsParseInt10 (s : String) : Option Int :=
  let trimmed := s.data.dropWhile isJsSpace
  let signed : Bool × List Char :=
    match trimmed with
    | '-' :: rest => (true, rest)
    | '+' :: rest => (false, rest)
    | _ => (false, trimmed)
  let digits := signed.2.takeWhile Char.isDigit
  if digits = [] then none
  else if signed.1 then some (-(digitCharsVal digits : Int))
  else some (digitCharsVal digits)

/-- The configuration store: one optional field per setting, exactly as the
private fields of the TypeScript class. -/
structure DpsConfig where
  domain : Option String
  apiPath : Option String
  developmentMode : Option Bool
  authApiSubdomain : Option String
  authApiPort : Option Int
  authApiProtocol : Option String
  authApiInsecureCookie : Option Bool
  authApiSqliteMainFilePath : Option String
  authApiSqliteMainPoolSize : Option Int
  authApiSqliteCollectionFilePath : Option String
  authApiSqliteCollectionPoolSize : Option Int
  authApiSqliteSessionFilePath : Option String
  authApiSqliteSessionPoolSize : Option Int
  authApiSessionSecret : Option String
  authApiSessionTtlSeconds : Option Int
  deriving DecidableEq

/-- `loadEnvString`: the raw value if present and non-empty, otherwise unset. -/
def loadEnvString (env : Env) (pfx key : String) : Option String :=
  match env (pfx ++ key) with
  | some value => if value.length > 0 then some value else none
  | none => none

/-- `loadEnvBool`: `true` exactly for the raw value `"Y"`, unset when the
variable is absent, `false` for any other present value. -/
def loadEnvBool (env : Env) (pfx key : String) : Option Bool :=
  match env (pfx ++ key) with
  | some value => if value = "Y" then some true else some false
  | none => none

/-- `loadEnvNumber`: unset when absent or empty, else `parseInt(value, 10)`,
with a `NaN` parse result collapsed to unset. -/
def loadEnvNumber (env : Env) (pfx key : String) : Option Int :=
  match env (pfx ++ key) with
  | none => none
  | some value =>
    if value.length = 0 then none
    else jsParseInt10 value

/-- The constructor: load every field from the (prefixed) environment. -/
def DpsConfig.ofEnv (env : Env) (pfx : String) : DpsConfig where
  domain := loadEnvString env pfx "DPS_DOMAIN"
  apiPath := loadEnvString env pfx "DPS_API_PATH"
  developmentMode := loadEnvBool env pfx "DPS_DEVELOPMENT_MODE"
  authApiSubdomain := loadEnvString env pfx "DPS_AUTH_API_SUBDOMAIN"
  authApiPort := loadEnvNumber env pfx "DPS_AUTH_API_PORT"
  authApiProtocol := loadEnvString env pfx "DPS_AUTH_API_PROTOCOL"
  authApiInsecureCookie := loadEnvBool env pfx "DPS_AUTH_API_INSECURE_COOKIE"
  authApiSqliteMainFilePath := loadEnvString env pfx "DPS_AUTH_API_SQLITE_MAIN_FILE_PATH"
  authApiSqliteMainPoolSize := loadEnvNumber env pfx "DPS_AUTH_API_SQLITE_MAIN_POOL_SIZE"
  authApiSqliteCollectionFilePath := loadEnvString env pfx "DPS_AUTH_API_SQLITE_COLLECTION_FILE_PATH"
  authApiSqliteCollectionPoolSize := loadEnvNumber env pfx "DPS_AUTH_API_SQLITE_COLLECTION_POOL_SIZE"
  authApiSqliteSessionFilePath := loadEnvString env pfx "DPS_AUTH_API_SQLITE_SESSION_FILE_PATH"
  authApiSqliteSessionPoolSize := loadEnvNumber env pfx "DPS_AUTH_API_SQLITE_SESSION_POOL_SIZE"
  authApiSessionSecret := loadEnvString env pfx "DPS_AUTH_API_SESSION_SECRET"
  authApiSessionTtlSeconds := loadEnvNumber env pfx "DPS_AUTH_API_SESSION_TTL_SECONDS"

def DpsConfig.getDomain (c : DpsConfig) : String :=
  c.domain.getD "dps.localhost"

def DpsConfig.setDomain (c : DpsConfig) (value : String) : DpsConfig :=
  { c with domain := some value }

def DpsConfig.getApiPath (c : DpsConfig) : String :=
  c.apiPath.getD "api"

def DpsConfig.setApiPath (c : DpsConfig) (value : String) : DpsConfig :=
  { c with apiPath := some value }

def DpsConfig.getDevelopmentMode (c : DpsConfig) : Bool :=
  c.developmentMode.getD false

def DpsConfig.setDevelopmentMode (c : DpsConfig) (value : Bool) : DpsConfig :=
  { c with developmentMode := some value }

def DpsConfig.getAuthApiSubdomain (c : DpsConfig) : String :=
  c.authApiSubdomain.getD "auth"

def DpsConfig.setAuthApiSubdomain (c : DpsConfig) (value : String) : DpsConfig :=
  { c with authApiSubdomain := some value }

def DpsConfig.getAuthApiPort (c : DpsConfig) : Option Int :=
  c.authApiPort

def DpsConfig.setAuthApiPort (c : DpsConfig) (value : Option Int) : DpsConfig :=
  { c with authApiPort := value }

def DpsConfig.getAuthApiProtocol (c : DpsConfig) : String :=
  c.authApiProtocol.getD "https"

def DpsConfig.setAuthApiProtocol (c : DpsConfig) (value : String) : DpsConfig :=
  { c with authApiProtocol := some value }

def DpsConfig.getAuthApiInsecureCookie (c : DpsConfig) : Bool :=
  c.authApiInsecureCookie.getD false

def DpsConfig.setAuthApiInsecureCookie (c : DpsConfig) (value : Bool) : DpsConfig :=
  { c with authApiInsecureCookie := some value }

def DpsConfig.getAuthApiSqliteMainFilePath (c : DpsConfig) : String :=
  c.authApiSqliteMainFilePath.getD "data/main-development.db"

def DpsConfig.setAuthApiSqliteMainFilePath (c : DpsConfig) (value : String) : DpsConfig :=
  { c with authApiSqliteMainFilePath := some value }

def DpsConfig.getAuthApiSqliteMainPoolSize (c : DpsConfig) : Int :=
  c.authApiSqliteMainPoolSize.getD 1

def DpsConfig.setAuthApiSqliteMainPoolSize (c : DpsConfig) (value : Option Int) : DpsConfig :=
  { c with authApiSqliteMainPoolSize := value }

def DpsConfig.getAuthApiSqliteCollectionFilePath (c : DpsConfig) : String :=
  c.authApiSqliteCollectionFilePath.getD "data/collection-development.db"

def DpsConfig.setAuthApiSqliteCollectionFilePath (c : DpsConfig) (value : String) : DpsConfig :=
  { c with authApiSqliteCollectionFilePath := some value }

def DpsConfig.getAuthApiSqliteCollectionPoolSize (c : DpsConfig) : Int :=
  c.authApiSqliteCollectionPoolSize.getD 1

def DpsConfig.setAuthApiSqliteCollectionPoolSize (c : DpsConfig) (value : Option Int) : DpsConfig :=
  { c with authApiSqliteCollectionPoolSize := value }

def DpsConfig.getAuthApiSqliteSessionFilePath (c : DpsConfig) : String :=
  c.authApiSqliteSessionFilePath.getD "data/session-development.db"

def DpsConfig.setAuthApiSqliteSessionFilePath (c : DpsConfig) (value : String) : DpsConfig :=
  { c with authApiSqliteSessionFilePath := some value }

def DpsConfig.getAuthApiSqliteSessionPoolSize (c : DpsConfig) : Int :=
  c.authApiSqliteSessionPoolSize.getD 1

def DpsConfig.setAuthApiSqliteSessionPoolSize (c : DpsConfig) (value : Option Int) : DpsConfig :=
  { c with authApiSqliteSessionPoolSize := value }

def DpsConfig.getAuthApiSessionSecret (c : DpsConfig) : Option String :=
  c.authApiSessionSecret

def DpsConfig.setAuthApiSessionSecret (c : DpsConfig) (value : Option String) : DpsConfig :=
  { c with authApiSessionSecret := value }

def DpsConfig.getAuthApiSessionTtlSeconds (c : DpsConfig) : Int :=
  c.authApiSessionTtlSeconds.getD 1209600

def DpsConfig.setAuthApiSessionTtlSeconds (c : DpsConfig) (value : Option Int) : DpsConfig :=
  { c with authApiSessionTtlSeconds := value }

/-- UTF-8 encoding of one Unicode scalar value, as the list of its byte
values (this is what `TextEncoder.encode` does per character). -/
def utf8EncodeCp (n : Nat) : List Nat :=
  if n < 0x80 then [n]
  else if n < 0x800 then [0xC0 + n / 64, 0x80 + n % 64]
  else if n < 0x10000 then [0xE0 + n / 4096, 0x80 + (n / 64) % 64, 0x80 + n % 64]
  else [0xF0 + n / 262144, 0x80 + (n / 4096) % 64, 0x80 + (n / 64) % 64, 0x80 + n % 64]

/-- UTF-8 encoding of a list of characters. -/
def utf8EncodeList (l : List Char) : List Nat :=
  l.flatMap (fun c => utf8EncodeCp c.toNat)

/-- Model of `TextEncoder.encode`: UTF-8 bytes of a string. -/
def utf8Encode (s : String) : List Nat :=
  utf8EncodeList s.data

/-- Decode one UTF-8 sequence from the front of a byte list, returning the
code point and the remaining bytes. -/
def utf8DecodeCp : List Nat → Option (Nat × List Nat)
  | [] => none
  | b :: rest =>
    if b < 0x80 then some (b, rest)
    else if b < 0xC0 then none
    else if b < 0xE0 then
      match rest with
      | b1 :: r =>
        if 0x80 ≤ b1 ∧ b1 < 0xC0 then some ((b - 0xC0) * 64 + (b1 - 0x80), r)
        else none
      | [] => none
    else if b < 0xF0 then
      match rest with
      | b1 :: b2 :: r =>
        if (0x80 ≤ b1 ∧ b1 < 0xC0) ∧ (0x80 ≤ b2 ∧ b2 < 0xC0) then
          some ((b - 0xE0) * 4096 + (b1 - 0x80) * 64 + (b2 - 0x80), r)
        else none
      | _ => none
    else if b < 0xF8 then
      match rest with
      | b1 :: b2 :: b3 :: r =>
        if (0x80 ≤ b1 ∧ b1 < 0xC0) ∧ (0x80 ≤ b2 ∧ b2 < 0xC0) ∧ (0x80 ≤ b3 ∧ b3 < 0xC0) then
          some ((b - 0xF0) * 262144 + (b1 - 0x80) * 4096 + (b2 - 0x80) * 64 + (b3 - 0x80), r)
        else none
      | _ => none
    else none

/-- Decode a whole byte list into code points; the fuel argument bounds the
number of decoded characters (each sequence consumes at least one byte). -/
def utf8DecodeAux : Nat → List Nat → Option (List Nat)
  | _, [] => some []
  | 0, _ :: _ => none
  | fuel + 1, b :: bs =>
    match utf8DecodeCp (b :: bs) with
    | none => none
    | some (n, rest) => (utf8DecodeAux fuel rest).map (fun l => n :: l)

/-- A code point back to a character, `none` when it is no Unicode scalar
value. -/
def cpToChar? (n : Nat) : Option Char :=
  if Char.isValidCharNat n then some (Char.ofNat n) else none

/-- Convert a list of code points back to characters, `none` when any of them
is no Unicode scalar value. -/
def cpsToChars? : List Nat → Option (List Char)
  | [] => some []
  | n :: t => (cpToChar? n).bind (fun c => (cpsToChars? t).map (fun cs => c :: cs))

/-- Model of `TextDecoder.decode`: parse UTF-8 byte sequences and rebuild the
string, `none` on ill-formed input. -/
def utf8Decode (bs : List Nat) : Option String :=
  (utf8DecodeAux bs.length bs).bind
    (fun cps => (cpsToChars? cps).map (fun cs => String.mk cs))

/-- `getAuthApiSessionSecretBytes`: UTF-8 bytes of the secret, absent when the
secret is absent. -/
def DpsConfig.getAuthApiSessionSecretBytes (c : DpsConfig) : Option (List Nat) :=
  match c.authApiSessionSecret with
  | none => none
  | some s => some (utf8Encode s)

/-- `getAuthApiUrl`: the composed URL; `port ? `:${port}` : ""` makes the port
segment empty for an absent or zero (falsy) port. -/
def DpsConfig.getAuthApiUrl (c : DpsConfig) : String :=
  let protocol := c.getAuthApiProtocol
  let authSub := c.getAuthApiSubdomain
  let domain := c.getDomain
  let apiPath := c.getApiPath
  let port := c.getAuthApiPort
  let portString :=
    match port with
    | some p => if p = 0 then "" else ":" ++ toString p
    | none => ""
  protocol ++ "://" ++ authSub ++ "." ++ domain ++ portString ++ "/" ++ apiPath

/-! Helper lemmas about the UTF-8 codec, leading to the encode/decode
round-trip used for the session-secret claims. -/

theorem char_isValidCharNat (c : Char) : Char.isValidCharNat c.toNat := by
  rcases c.valid with h | ⟨h1, h2⟩
  · exact Or.inl (UInt32.toNat_lt_of_lt (by decide) h)
  · exact Or.inr ⟨UInt32.lt_toNat_of_lt (by decide) h1, UInt32.toNat_lt_of_lt (by decide) h2⟩

theorem char_toNat_lt (c : Char) : c.toNat < 1114112 := by
  rcases char_isValidCharNat c with h | ⟨_, h⟩ <;> omega

theorem utf8EncodeCp_length_pos (n : Nat) : 0 < (utf8EncodeCp n).length := by
  unfold utf8EncodeCp
  split_ifs <;> simp

theorem utf8EncodeList_cons (c : Char) (t : List Char) :
    utf8EncodeList (c :: t) = utf8EncodeCp c.toNat ++ utf8EncodeList t := by
  simp [utf8EncodeList]

theorem length_le_utf8EncodeList (l : List Char) :
    l.length ≤ (utf8EncodeList l).length := by
  induction l with
  | nil => simp [utf8EncodeList]
  | cons c t ih =>
    rw [utf8EncodeList_cons]
    have := utf8EncodeCp_length_pos c.toNat
    simp only [List.length_append, List.length_cons]
    omega

theorem utf8DecodeCp_utf8EncodeCp (n : Nat) (h : n < 1114112) (rest : List Nat) :
    utf8DecodeCp (utf8EncodeCp n ++ rest) = some (n, rest) := by
  by_cases h1 : n < 0x80
  · simp only [utf8EncodeCp, if_pos h1, List.cons_append, List.nil_append, utf8DecodeCp,
      if_pos h1]
  · by_cases h2 : n < 0x800
    · have e1 : ¬ (0xC0 + n / 64 < 0x80) := by omega
      have e2 : ¬ (0xC0 + n / 64 < 0xC0) := by omega
      have e3 : 0xC0 + n / 64 < 0xE0 := by omega
      have e4 : 0x80 ≤ 0x80 + n % 64 ∧ 0x80 + n % 64 < 0xC0 := by omega
      simp only [utf8EncodeCp, if_neg h1, if_pos h2, List.cons_append, List.nil_append,
        utf8DecodeCp, if_neg e1, if_neg e2, if_pos e3, if_pos e4,
        Option.some.injEq, Prod.mk.injEq]
      exact ⟨by omega, trivial⟩
    · by_cases h3 : n < 0x10000
      · have e1 : ¬ (0xE0 + n / 4096 < 0x80) := by omega
        have e2 : ¬ (0xE0 + n / 4096 < 0xC0) := by omega
        have e3 : ¬ (0xE0 + n / 4096 < 0xE0) := by omega
        have e4 : 0xE0 + n / 4096 < 0xF0 := by omega
        have e5 : (0x80 ≤ 0x80 + n / 64 % 64 ∧ 0x80 + n / 64 % 64 < 0xC0) ∧
            (0x80 ≤ 0x80 + n % 64 ∧ 0x80 + n % 64 < 0xC0) := by omega
        simp only [utf8EncodeCp, if_neg h1, if_neg h2, if_pos h3, List.cons_append,
          List.nil_append, utf8DecodeCp, if_neg e1, if_neg e2, if_neg e3, if_pos e4,
          if_pos e5, Option.some.injEq, Prod.mk.injEq]
        exact ⟨by omega, trivial⟩
      · have e1 : ¬ (0xF0 + n / 262144 < 0x80) := by omega
        have e2 : ¬ (0xF0 + n / 262144 < 0xC0) := by omega
        have e3 : ¬ (0xF0 + n / 262144 < 0xE0) := by omega
        have e4 : ¬ (0xF0 + n / 262144 < 0xF0) := by omega
        have e5 : 0xF0 + n / 262144 < 0xF8 := by omega
        have e6 : (0x80 ≤ 0x80 + n / 4096 % 64 ∧ 0x80 + n / 4096 % 64 < 0xC0) ∧
            (0x80 ≤ 0x80 + n / 64 % 64 ∧ 0x80 + n / 64 % 64 < 0xC0) ∧
            (0x80 ≤ 0x80 + n % 64 ∧ 0x80 + n % 64 < 0xC0) := by omega
        simp only [utf8EncodeCp, if_neg h1, if_neg h2, if_neg h3, List.cons_append,
          List.nil_append, utf8DecodeCp, if_neg e1, if_neg e2, if_neg e3, if_neg e4,
          if_pos e5, if_pos e6, Option.some.injEq, Prod.mk.injEq]
        exact ⟨by omega, trivial⟩

theorem utf8DecodeAux_utf8EncodeList (l : List Char) (fuel : Nat)
    (h : l.length ≤ fuel) :
    utf8DecodeAux fuel (utf8EncodeList l) = some (l.map Char.toNat) := by
  induction l generalizing fuel with
  | nil => cases fuel <;> simp [utf8EncodeList, utf8DecodeAux]
  | cons c t ih =>
    cases fuel with
    | zero => simp at h
    | succ f =>
      obtain ⟨b, bs, hbs⟩ : ∃ b bs, utf8EncodeCp c.toNat = b :: bs := by
        cases hcons : utf8EncodeCp c.toNat with
        | nil =>
          have := utf8EncodeCp_length_pos c.toNat
          rw [hcons] at this
          simp at this
        | cons b bs => exact ⟨b, bs, rfl⟩
      have henc : utf8EncodeList (c :: t) = b :: (bs ++ utf8EncodeList t) := by
        rw [utf8EncodeList_cons, hbs, List.cons_append]
      have hdec : utf8DecodeCp (b :: (bs ++ utf8EncodeList t)) =
          some (c.toNat, utf8EncodeList t) := by
        have hr := utf8DecodeCp_utf8EncodeCp c.toNat (char_toNat_lt c) (utf8EncodeList t)
        rw [hbs, List.cons_append] at hr
        exact hr
      have hrec : utf8DecodeAux f (utf8EncodeList t) = some (t.map Char.toNat) :=
        ih f (by simpa using Nat.le_of_succ_le_succ (by simpa using h))
      rw [henc]
      simp [utf8DecodeAux, hdec, hrec]

theorem cpToChar?_toNat (c : Char) : cpToChar? c.toNat = some c := by
  unfold cpToChar?
  rw [if_pos (char_isValidCharNat c), Char.ofNat_toNat]

theorem cpsToChars?_map_toNat (l : List Char) :
    cpsToChars? (l.map Char.toNat) = some l := by
  induction l with
  | nil => rfl
  | cons c t ih => simp [cpsToChars?, cpToChar?_toNat, ih]

theorem utf8Decode_utf8Encode (s : String) : utf8Decode (utf8Encode s) = some s := by
  unfold utf8Decode utf8Encode
  rw [utf8DecodeAux_utf8EncodeList s.data _ (length_le_utf8EncodeList s.data)]
  simp [cpsToChars?_map_toNat]

/-! Helper lemmas comparing a loader on an environment with a variable set to
the empty string against the same environment with the variable absent. -/

theorem loadEnvString_override_empty (env : Env) (k pfx key : String) :
    loadEnvString (Env.override env k (some "")) pfx key =
    loadEnvString (Env.override env k none) pfx key := by
  unfold loadEnvString Env.override
  by_cases h : pfx ++ key = k <;> simp [h]

theorem loadEnvNumber_override_empty (env : Env) (k pfx key : String) :
    loadEnvNumber (Env.override env k (some "")) pfx key =
    loadEnvNumber (Env.override env k none) pfx key := by
  unfold loadEnvNumber Env.override
  by_cases h : pfx ++ key = k <;> simp [h]

theorem loadEnvBool_override_empty_getD (env : Env) (k pfx key : String) :
    (loadEnvBool (Env.override env k (some "")) pfx key).getD false =
    (loadEnvBool (Env.override env k none) pfx key).getD false := by
  unfold loadEnvBool Env.override
  by_cases h : pfx ++ key = k <;> simp [h]

/-- The all-absent environment snapshot. -/
def envAllAbsent : Env := fun _ => none

theorem string_eq_empty_of_length_zero {v : String} (h : v.length = 0) : v = "" := by
  cases v with
  | mk data =>
    cases data with
    | nil => rfl
    | cons c t => simp [String.length] at h

/-- The names of the fifteen environment variables the constructor reads. -/
def envVarNames : List String :=
  ["DPS_DOMAIN", "DPS_API_PATH", "DPS_DEVELOPMENT_MODE", "DPS_AUTH_API_SUBDOMAIN",
   "DPS_AUTH_API_PORT", "DPS_AUTH_API_PROTOCOL", "DPS_AUTH_API_INSECURE_COOKIE",
   "DPS_AUTH_API_SQLITE_MAIN_FILE_PATH", "DPS_AUTH_API_SQLITE_MAIN_POOL_SIZE",
   "DPS_AUTH_API_SQLITE_COLLECTION_FILE_PATH", "DPS_AUTH_API_SQLITE_COLLECTION_POOL_SIZE",
   "DPS_AUTH_API_SQLITE_SESSION_FILE_PATH", "DPS_AUTH_API_SQLITE_SESSION_POOL_SIZE",
   "DPS_AUTH_API_SESSION_SECRET", "DPS_AUTH_API_SESSION_TTL_SECONDS"]

/-- C1: the boolean loader yields `true` exactly when the raw value is the
single-character string `"Y"`, the unset sentinel when the variable is absent,
and `false` for any other present value; hence the boolean getters of a
freshly constructed store are `true` exactly when the raw value is `"Y"` and
`false` otherwise (absent or present-but-not-`"Y"`). -/
theorem claim_C1_bool_loader (env : Env) (pfx key : String) :
    (loadEnvBool env pfx key = some true ↔ env (pfx ++ key) = some "Y")
    ∧ (loadEnvBool env pfx key = none ↔ env (pfx ++ key) = none)
    ∧ (loadEnvBool env pfx key = some false ↔
        ∃ v, env (pfx ++ key) = some v ∧ v ≠ "Y")
    ∧ ((DpsConfig.ofEnv env pfx).getAuthApiInsecureCookie = true ↔
        env (pfx ++ "DPS_AUTH_API_INSECURE_COOKIE") = some "Y")
    ∧ (env (pfx ++ "DPS_AUTH_API_INSECURE_COOKIE") ≠ some "Y" →
        (DpsConfig.ofEnv env pfx).getAuthApiInsecureCookie = false)
    ∧ ((DpsConfig.ofEnv env pfx).getDevelopmentMode = true ↔
        env (pfx ++ "DPS_DEVELOPMENT_MODE") = some "Y") := by
  refine ⟨?_, ?_, ?_, ?_, ?_, ?_⟩
  · unfold loadEnvBool
    cases h : env (pfx ++ key) with
    | none => simp
    | some v => by_cases hv : v = "Y" <;> simp [hv]
  · unfold loadEnvBool
    cases h : env (pfx ++ key) with
    | none => simp
    | some v => by_cases hv : v = "Y" <;> simp [hv]
  · unfold loadEnvBool
    cases h : env (pfx ++ key) with
    | none => simp
    | some v => by_cases hv : v = "Y" <;> simp [hv]
  · show (loadEnvBool env pfx "DPS_AUTH_API_INSECURE_COOKIE").getD false = true ↔ _
    unfold loadEnvBool
    cases h : env (pfx ++ "DPS_AUTH_API_INSECURE_COOKIE") with
    | none => simp
    | some v => by_cases hv : v = "Y" <;> simp [hv]
  · intro hne
    show (loadEnvBool env pfx "DPS_AUTH_API_INSECURE_COOKIE").getD false = false
    unfold loadEnvBool
    cases h : env (pfx ++ "DPS_AUTH_API_INSECURE_COOKIE") with
    | none => simp
    | some v =>
      have hv : v ≠ "Y" := by
        intro hv
        exact hne (by rw [h, hv])
      simp [hv]
  · show (loadEnvBool env pfx "DPS_DEVELOPMENT_MODE").getD false = true ↔ _
    unfold loadEnvBool
    cases h : env (pfx ++ "DPS_DEVELOPMENT_MODE") with
    | none => simp
    | some v => by_cases hv : v = "Y" <;> simp [hv]

/-- Witness for C1 at a concrete environment where the variable is present
with value `"N"`: the getter returns `false`. -/
theorem claim_C1_bool_loader_witness :
    (DpsConfig.ofEnv (Env.override envAllAbsent "DPS_AUTH_API_INSECURE_COOKIE" (some "N")) "").getAuthApiInsecureCookie = false :=
  (claim_C1_bool_loader
    (Env.override envAllAbsent "DPS_AUTH_API_INSECURE_COOKIE" (some "N")) "" "").2.2.2.2.1
    (by decide)

/-- C2: the integer loader yields the unset sentinel when the variable is
absent or empty, the parsed base-10 integer on a parse success, and the unset
sentinel on a parse failure; `"8"` parses to `8`, `"not-a-number"` fails to
parse, and the getters then fall back to the default (or the absent signal
for the port). -/
theorem claim_C2_int_loader (env : Env) (pfx key : String) :
    (env (pfx ++ key) = none → loadEnvNumber env pfx key = none)
    ∧ (env (pfx ++ key) = some "" → loadEnvNumber env pfx key = none)
    ∧ (∀ v n, env (pfx ++ key) = some v → jsParseInt10 v = some n →
        loadEnvNumber env pfx key = some n)
    ∧ (∀ v, env (pfx ++ key) = some v → jsParseInt10 v = none →
        loadEnvNumber env pfx key = none)
    ∧ jsParseInt10 "8" = some 8
    ∧ jsParseInt10 "not-a-number" = none
    ∧ (env (pfx ++ "DPS_AUTH_API_SQLITE_MAIN_POOL_SIZE") = some "8" →
        (DpsConfig.ofEnv env pfx).getAuthApiSqliteMainPoolSize = 8)
    ∧ (env (pfx ++ "DPS_AUTH_API_SQLITE_MAIN_POOL_SIZE") = some "not-a-number" →
        (DpsConfig.ofEnv env pfx).getAuthApiSqliteMainPoolSize = 1)
    ∧ (env (pfx ++ "DPS_AUTH_API_PORT") = none →
        (DpsConfig.ofEnv env pfx).getAuthApiPort = none) := by
  refine ⟨?_, ?_, ?_, ?_, by decide, by decide, ?_, ?_, ?_⟩
  · intro h
    unfold loadEnvNumber
    rw [h]
  · intro h
    unfold loadEnvNumber
    rw [h]
    simp
  · intro v n hv hp
    unfold loadEnvNumber
    rw [hv]
    show (if v.length = 0 then none else jsParseInt10 v) = some n
    have hlen : ¬ v.length = 0 := by
      intro h0
      rw [string_eq_empty_of_length_zero h0] at hp
      exact Option.noConfusion ((by decide : jsParseInt10 "" = none) ▸ hp)
    rw [if_neg hlen, hp]
  · intro v hv hp
    unfold loadEnvNumber
    rw [hv]
    show (if v.length = 0 then none else jsParseInt10 v) = none
    by_cases hlen : v.length = 0
    · rw [if_pos hlen]
    · rw [if_neg hlen, hp]
  · intro h
    have hload : loadEnvNumber env pfx "DPS_AUTH_API_SQLITE_MAIN_POOL_SIZE" = some 8 := by
      unfold loadEnvNumber
      rw [h]
      decide
    show (loadEnvNumber env pfx "DPS_AUTH_API_SQLITE_MAIN_POOL_SIZE").getD 1 = 8
    rw [hload]
    rfl
  · intro h
    have hload : loadEnvNumber env pfx "DPS_AUTH_API_SQLITE_MAIN_POOL_SIZE" = none := by
      unfold loadEnvNumber
      rw [h]
      decide
    show (loadEnvNumber env pfx "DPS_AUTH_API_SQLITE_MAIN_POOL_SIZE").getD 1 = 1
    rw [hload]
    rfl
  · intro h
    show loadEnvNumber env pfx "DPS_AUTH_API_PORT" = none
    unfold loadEnvNumber
    rw [h]

/-- Witness for C2 at a concrete environment: the pool size variable set to
`"8"` makes the getter return `8`. -/
theorem claim_C2_int_loader_witness :
    (DpsConfig.ofEnv (Env.override envAllAbsent "DPS_AUTH_API_SQLITE_MAIN_POOL_SIZE" (some "8")) "").getAuthApiSqliteMainPoolSize = 8 :=
  (claim_C2_int_loader
    (Env.override envAllAbsent "DPS_AUTH_API_SQLITE_MAIN_POOL_SIZE" (some "8")) "" "").2.2.2.2.2.2.1
    (by decide)

/-- Two stores agree on the result of every getter (the fifteen setting
getters and the two derived computations). -/
def sameGetters (a b : DpsConfig) : Prop :=
  a.getDomain = b.getDomain
  ∧ a.getApiPath = b.getApiPath
  ∧ a.getDevelopmentMode = b.getDevelopmentMode
  ∧ a.getAuthApiSubdomain = b.getAuthApiSubdomain
  ∧ a.getAuthApiPort = b.getAuthApiPort
  ∧ a.getAuthApiProtocol = b.getAuthApiProtocol
  ∧ a.getAuthApiInsecureCookie = b.getAuthApiInsecureCookie
  ∧ a.getAuthApiSqliteMainFilePath = b.getAuthApiSqliteMainFilePath
  ∧ a.getAuthApiSqliteMainPoolSize = b.getAuthApiSqliteMainPoolSize
  ∧ a.getAuthApiSqliteCollectionFilePath = b.getAuthApiSqliteCollectionFilePath
  ∧ a.getAuthApiSqliteCollectionPoolSize = b.getAuthApiSqliteCollectionPoolSize
  ∧ a.getAuthApiSqliteSessionFilePath = b.getAuthApiSqliteSessionFilePath
  ∧ a.getAuthApiSqliteSessionPoolSize = b.getAuthApiSqliteSessionPoolSize
  ∧ a.getAuthApiSessionSecret = b.getAuthApiSessionSecret
  ∧ a.getAuthApiSessionTtlSeconds = b.getAuthApiSessionTtlSeconds
  ∧ a.getAuthApiSessionSecretBytes = b.getAuthApiSessionSecretBytes
  ∧ a.getAuthApiUrl = b.getAuthApiUrl

/-- C3: for any environment, prefix and variable name, a store constructed
with that variable set to the empty string returns the same result from every
getter as a store constructed with the variable absent. -/
theorem claim_C3_empty_equals_absent (env : Env) (pfx k : String) :
    sameGetters (DpsConfig.ofEnv (Env.override env k (some "")) pfx)
      (DpsConfig.ofEnv (Env.override env k none) pfx) := by
  unfold sameGetters
  simp only [DpsConfig.ofEnv, DpsConfig.getDomain, DpsConfig.getApiPath,
    DpsConfig.getDevelopmentMode, DpsConfig.getAuthApiSubdomain, DpsConfig.getAuthApiPort,
    DpsConfig.getAuthApiProtocol, DpsConfig.getAuthApiInsecureCookie,
    DpsConfig.getAuthApiSqliteMainFilePath, DpsConfig.getAuthApiSqliteMainPoolSize,
    DpsConfig.getAuthApiSqliteCollectionFilePath, DpsConfig.getAuthApiSqliteCollectionPoolSize,
    DpsConfig.getAuthApiSqliteSessionFilePath, DpsConfig.getAuthApiSqliteSessionPoolSize,
    DpsConfig.getAuthApiSessionSecret, DpsConfig.getAuthApiSessionTtlSeconds,
    DpsConfig.getAuthApiSessionSecretBytes, DpsConfig.getAuthApiUrl]
  rw [loadEnvString_override_empty env k pfx "DPS_DOMAIN",
    loadEnvString_override_empty env k pfx "DPS_API_PATH",
    loadEnvString_override_empty env k pfx "DPS_AUTH_API_SUBDOMAIN",
    loadEnvString_override_empty env k pfx "DPS_AUTH_API_PROTOCOL",
    loadEnvString_override_empty env k pfx "DPS_AUTH_API_SQLITE_MAIN_FILE_PATH",
    loadEnvString_override_empty env k pfx "DPS_AUTH_API_SQLITE_COLLECTION_FILE_PATH",
    loadEnvString_override_empty env k pfx "DPS_AUTH_API_SQLITE_SESSION_FILE_PATH",
    loadEnvString_override_empty env k pfx "DPS_AUTH_API_SESSION_SECRET",
    loadEnvNumber_override_empty env k pfx "DPS_AUTH_API_PORT",
    loadEnvNumber_override_empty env k pfx "DPS_AUTH_API_SQLITE_MAIN_POOL_SIZE",
    loadEnvNumber_override_empty env k pfx "DPS_AUTH_API_SQLITE_COLLECTION_POOL_SIZE",
    loadEnvNumber_override_empty env k pfx "DPS_AUTH_API_SQLITE_SESSION_POOL_SIZE",
    loadEnvNumber_override_empty env k pfx "DPS_AUTH_API_SESSION_TTL_SECONDS",
    loadEnvBool_override_empty_getD env k pfx "DPS_DEVELOPMENT_MODE",
    loadEnvBool_override_empty_getD env k pfx "DPS_AUTH_API_INSECURE_COOKIE"]
  exact ⟨rfl, rfl, rfl, rfl, rfl, rfl, rfl, rfl, rfl, rfl, rfl, rfl, rfl, rfl, rfl, rfl, rfl⟩

/-- C4: constructing with none of the fifteen variables present yields the
documented default from every getter with a default, and the absent signal
for the port and the session secret. -/
theorem claim_C4_defaults (env : Env) (pfx : String)
    (h : ∀ key ∈ envVarNames, env (pfx ++ key) = none) :
    (DpsConfig.ofEnv env pfx).getDomain = "dps.localhost"
    ∧ (DpsConfig.ofEnv env pfx).getApiPath = "api"
    ∧ (DpsConfig.ofEnv env pfx).getDevelopmentMode = false
    ∧ (DpsConfig.ofEnv env pfx).getAuthApiSubdomain = "auth"
    ∧ (DpsConfig.ofEnv env pfx).getAuthApiProtocol = "https"
    ∧ (DpsConfig.ofEnv env pfx).getAuthApiInsecureCookie = false
    ∧ (DpsConfig.ofEnv env pfx).getAuthApiSqliteMainFilePath = "data/main-development.db"
    ∧ (DpsConfig.ofEnv env pfx).getAuthApiSqliteCollectionFilePath = "data/collection-development.db"
    ∧ (DpsConfig.ofEnv env pfx).getAuthApiSqliteSessionFilePath = "data/session-development.db"
    ∧ (DpsConfig.ofEnv env pfx).getAuthApiSqliteMainPoolSize = 1
    ∧ (DpsConfig.ofEnv env pfx).getAuthApiSqliteCollectionPoolSize = 1
    ∧ (DpsConfig.ofEnv env pfx).getAuthApiSqliteSessionPoolSize = 1
    ∧ (DpsConfig.ofEnv env pfx).getAuthApiSessionTtlSeconds = 1209600
    ∧ (DpsConfig.ofEnv env pfx).getAuthApiPort = none
    ∧ (DpsConfig.ofEnv env pfx).getAuthApiSessionSecret = none := by
  have hS : ∀ key, env (pfx ++ key) = none → loadEnvString env pfx key = none := by
    intro key hk
    unfold loadEnvString
    rw [hk]
  have hB : ∀ key, env (pfx ++ key) = none → loadEnvBool env pfx key = none := by
    intro key hk
    unfold loadEnvBool
    rw [hk]
  have hN : ∀ key, env (pfx ++ key) = none → loadEnvNumber env pfx key = none := by
    intro key hk
    unfold loadEnvNumber
    rw [hk]
  refine ⟨?_, ?_, ?_, ?_, ?_, ?_, ?_, ?_, ?_, ?_, ?_, ?_, ?_, ?_, ?_⟩
  · show (loadEnvString env pfx "DPS_DOMAIN").getD _ = _
    rw [hS _ (h _ (by decide))]
    rfl
  · show (loadEnvString env pfx "DPS_API_PATH").getD _ = _
    rw [hS _ (h _ (by decide))]
    rfl
  · show (loadEnvBool env pfx "DPS_DEVELOPMENT_MODE").getD _ = _
    rw [hB _ (h _ (by decide))]
    rfl
  · show (loadEnvString env pfx "DPS_AUTH_API_SUBDOMAIN").getD _ = _
    rw [hS _ (h _ (by decide))]
    rfl
  · show (loadEnvString env pfx "DPS_AUTH_API_PROTOCOL").getD _ = _
    rw [hS _ (h _ (by decide))]
    rfl
  · show (loadEnvBool env pfx "DPS_AUTH_API_INSECURE_COOKIE").getD _ = _
    rw [hB _ (h _ (by decide))]
    rfl
  · show (loadEnvString env pfx "DPS_AUTH_API_SQLITE_MAIN_FILE_PATH").getD _ = _
    rw [hS _ (h _ (by decide))]
    rfl
  · show (loadEnvString env pfx "DPS_AUTH_API_SQLITE_COLLECTION_FILE_PATH").getD _ = _
    rw [hS _ (h _ (by decide))]
    rfl
  · show (loadEnvString env pfx "DPS_AUTH_API_SQLITE_SESSION_FILE_PATH").getD _ = _
    rw [hS _ (h _ (by decide))]
    rfl
  · show (loadEnvNumber env pfx "DPS_AUTH_API_SQLITE_MAIN_POOL_SIZE").getD _ = _
    rw [hN _ (h _ (by decide))]
    rfl
  · show (loadEnvNumber env pfx "DPS_AUTH_API_SQLITE_COLLECTION_POOL_SIZE").getD _ = _
    rw [hN _ (h _ (by decide))]
    rfl
  · show (loadEnvNumber env pfx "DPS_AUTH_API_SQLITE_SESSION_POOL_SIZE").getD _ = _
    rw [hN _ (h _ (by decide))]
    rfl
  · show (loadEnvNumber env pfx "DPS_AUTH_API_SESSION_TTL_SECONDS").getD _ = _
    rw [hN _ (h _ (by decide))]
    rfl
  · exact hN _ (h _ (by decide))
  · exact hS _ (h _ (by decide))

/-- Witness for C4 at the all-absent environment with the empty prefix. -/
theorem claim_C4_defaults_witness :
    (DpsConfig.ofEnv envAllAbsent "").getDomain = "dps.localhost"
    ∧ (DpsConfig.ofEnv envAllAbsent "").getApiPath = "api"
    ∧ (DpsConfig.ofEnv envAllAbsent "").getDevelopmentMode = false
    ∧ (DpsConfig.ofEnv envAllAbsent "").getAuthApiSubdomain = "auth"
    ∧ (DpsConfig.ofEnv envAllAbsent "").getAuthApiProtocol = "https"
    ∧ (DpsConfig.ofEnv envAllAbsent "").getAuthApiInsecureCookie = false
    ∧ (DpsConfig.ofEnv envAllAbsent "").getAuthApiSqliteMainFilePath = "data/main-development.db"
    ∧ (DpsConfig.ofEnv envAllAbsent "").getAuthApiSqliteCollectionFilePath = "data/collection-development.db"
    ∧ (DpsConfig.ofEnv envAllAbsent "").getAuthApiSqliteSessionFilePath = "data/session-development.db"
    ∧ (DpsConfig.ofEnv envAllAbsent "").getAuthApiSqliteMainPoolSize = 1
    ∧ (DpsConfig.ofEnv envAllAbsent "").getAuthApiSqliteCollectionPoolSize = 1
    ∧ (DpsConfig.ofEnv envAllAbsent "").getAuthApiSqliteSessionPoolSize = 1
    ∧ (DpsConfig.ofEnv envAllAbsent "").getAuthApiSessionTtlSeconds = 1209600
    ∧ (DpsConfig.ofEnv envAllAbsent "").getAuthApiPort = none
    ∧ (DpsConfig.ofEnv envAllAbsent "").getAuthApiSessionSecret = none :=
  claim_C4_defaults envAllAbsent "" (fun _ _ => rfl)

/-- C5: the composed auth URL is the concatenation of protocol, subdomain,
domain, optional port segment and API path from the current getter values;
the port segment is empty when the port is absent or zero and `:<port>`
otherwise; the defaults give `https://auth.dps.localhost/api` and port 3000
with protocol `http` gives `http://auth.dps.localhost:3000/api`. -/
theorem claim_C5_auth_url (c : DpsConfig) :
    (c.getAuthApiPort = none → c.getAuthApiUrl =
      c.getAuthApiProtocol ++ "://" ++ c.getAuthApiSubdomain ++ "." ++ c.getDomain
        ++ "/" ++ c.getApiPath)
    ∧ (c.getAuthApiPort = some 0 → c.getAuthApiUrl =
      c.getAuthApiProtocol ++ "://" ++ c.getAuthApiSubdomain ++ "." ++ c.getDomain
        ++ "/" ++ c.getApiPath)
    ∧ (∀ p : Int, c.getAuthApiPort = some p → p ≠ 0 → c.getAuthApiUrl =
      c.getAuthApiProtocol ++ "://" ++ c.getAuthApiSubdomain ++ "." ++ c.getDomain
        ++ ":" ++ toString p ++ "/" ++ c.getApiPath)
    ∧ (DpsConfig.ofEnv envAllAbsent "").getAuthApiUrl = "https://auth.dps.localhost/api"
    ∧ (((DpsConfig.ofEnv envAllAbsent "").setAuthApiProtocol "http").setAuthApiPort
        (some 3000)).getAuthApiUrl = "http://auth.dps.localhost:3000/api" := by
  refine ⟨?_, ?_, ?_, by decide, by decide⟩
  · intro h
    simp only [DpsConfig.getAuthApiUrl, h, String.append_empty]
  · intro h
    simp [DpsConfig.getAuthApiUrl, h, String.append_empty]
  · intro p h hp
    simp only [DpsConfig.getAuthApiUrl, h, if_neg hp, String.append_assoc]

/-- Witness for C5: the URL of the default store with protocol `http` and
port 3000, computed through the nonzero-port case of the theorem. -/
theorem claim_C5_auth_url_witness :
    (((DpsConfig.ofEnv envAllAbsent "").setAuthApiProtocol "http").setAuthApiPort
        (some 3000)).getAuthApiUrl =
      "http" ++ "://" ++ "auth" ++ "." ++ "dps.localhost" ++ ":" ++ toString (3000 : Int)
        ++ "/" ++ "api" :=
  (claim_C5_auth_url (((DpsConfig.ofEnv envAllAbsent "").setAuthApiProtocol "http").setAuthApiPort
      (some 3000))).2.2.1 3000 rfl (by decide)

/-- C6: when a secret is stored, the secret-bytes computation returns exactly
its UTF-8 encoding, and decoding that byte sequence restores the stored
string; when no secret is stored it returns the absent signal. -/
theorem claim_C6_secret_bytes (c : DpsConfig) :
    (∀ s, c.getAuthApiSessionSecret = some s →
      c.getAuthApiSessionSecretBytes = some (utf8Encode s)
      ∧ utf8Decode (utf8Encode s) = some s)
    ∧ (c.getAuthApiSessionSecret = none → c.getAuthApiSessionSecretBytes = none) := by
  constructor
  · intro s hs
    refine ⟨?_, utf8Decode_utf8Encode s⟩
    unfold DpsConfig.getAuthApiSessionSecretBytes
    rw [show c.authApiSessionSecret = some s from hs]
  · intro h
    unfold DpsConfig.getAuthApiSessionSecretBytes
    rw [show c.authApiSessionSecret = none from h]

/-- Witness for C6: the secret `"my-secret-key"` round-trips through the byte
encoding. -/
theorem claim_C6_secret_bytes_witness :
    ((DpsConfig.ofEnv envAllAbsent "").setAuthApiSessionSecret
        (some "my-secret-key")).getAuthApiSessionSecretBytes
      = some (utf8Encode "my-secret-key")
    ∧ utf8Decode (utf8Encode "my-secret-key") = some "my-secret-key" :=
  (claim_C6_secret_bytes
    ((DpsConfig.ofEnv envAllAbsent "").setAuthApiSessionSecret (some "my-secret-key"))).1
    "my-secret-key" rfl

/-- C7: every setter unconditionally overwrites its stored value, so that the
setting's own getter afterwards returns exactly the set value, while the
getter of every other setting returns the same result as before the call
(for the integer settings with defaults the set value is any integer, the
optional port, secret and the explicit-unset cases being covered separately). -/
theorem claim_C7_setter_overwrite_frame (c : DpsConfig) (s : String) (b : Bool)
    (n : Int) (o : Option Int) (os : Option String) :
    (c.setDomain s).getDomain = s
    ∧ (c.setDomain s).getApiPath = c.getApiPath
    ∧ (c.setDomain s).getDevelopmentMode = c.getDevelopmentMode
    ∧ (c.setDomain s).getAuthApiSubdomain = c.getAuthApiSubdomain
    ∧ (c.setDomain s).getAuthApiPort = c.getAuthApiPort
    ∧ (c.setDomain s).getAuthApiProtocol = c.getAuthApiProtocol
    ∧ (c.setDomain s).getAuthApiInsecureCookie = c.getAuthApiInsecureCookie
    ∧ (c.setDomain s).getAuthApiSqliteMainFilePath = c.getAuthApiSqliteMainFilePath
    ∧ (c.setDomain s).getAuthApiSqliteMainPoolSize = c.getAuthApiSqliteMainPoolSize
    ∧ (c.setDomain s).getAuthApiSqliteCollectionFilePath = c.getAuthApiSqliteCollectionFilePath
    ∧ (c.setDomain s).getAuthApiSqliteCollectionPoolSize = c.getAuthApiSqliteCollectionPoolSize
    ∧ (c.setDomain s).getAuthApiSqliteSessionFilePath = c.getAuthApiSqliteSessionFilePath
    ∧ (c.setDomain s).getAuthApiSqliteSessionPoolSize = c.getAuthApiSqliteSessionPoolSize
    ∧ (c.setDomain s).getAuthApiSessionSecret = c.getAuthApiSessionSecret
    ∧ (c.setDomain s).getAuthApiSessionTtlSeconds = c.getAuthApiSessionTtlSeconds
    ∧ (c.setApiPath s).getApiPath = s
    ∧ (c.setApiPath s).getDomain = c.getDomain
    ∧ (c.setApiPath s).getDevelopmentMode = c.getDevelopmentMode
    ∧ (c.setApiPath s).getAuthApiSubdomain = c.getAuthApiSubdomain
    ∧ (c.setApiPath s).getAuthApiPort = c.getAuthApiPort
    ∧ (c.setApiPath s).getAuthApiProtocol = c.getAuthApiProtocol
    ∧ (c.setApiPath s).getAuthApiInsecureCookie = c.getAuthApiInsecureCookie
    ∧ (c.setApiPath s).getAuthApiSqliteMainFilePath = c.getAuthApiSqliteMainFilePath
    ∧ (c.setApiPath s).getAuthApiSqliteMainPoolSize = c.getAuthApiSqliteMainPoolSize
    ∧ (c.setApiPath s).getAuthApiSqliteCollectionFilePath = c.getAuthApiSqliteCollectionFilePath
    ∧ (c.setApiPath s).getAuthApiSqliteCollectionPoolSize = c.getAuthApiSqliteCollectionPoolSize
    ∧ (c.setApiPath s).getAuthApiSqliteSessionFilePath = c.getAuthApiSqliteSessionFilePath
    ∧ (c.setApiPath s).getAuthApiSqliteSessionPoolSize = c.getAuthApiSqliteSessionPoolSize
    ∧ (c.setApiPath s).getAuthApiSessionSecret = c.getAuthApiSessionSecret
    ∧ (c.setApiPath s).getAuthApiSessionTtlSeconds = c.getAuthApiSessionTtlSeconds
    ∧ (c.setDevelopmentMode b).getDevelopmentMode = b
    ∧ (c.setDevelopmentMode b).getDomain = c.getDomain
    ∧ (c.setDevelopmentMode b).getApiPath = c.getApiPath
    ∧ (c.setDevelopmentMode b).getAuthApiSubdomain = c.getAuthApiSubdomain
    ∧ (c.setDevelopmentMode b).getAuthApiPort = c.getAuthApiPort
    ∧ (c.setDevelopmentMode b).getAuthApiProtocol = c.getAuthApiProtocol
    ∧ (c.setDevelopmentMode b).getAuthApiInsecureCookie = c.getAuthApiInsecureCookie
    ∧ (c.setDevelopmentMode b).getAuthApiSqliteMainFilePath = c.getAuthApiSqliteMainFilePath
    ∧ (c.setDevelopmentMode b).getAuthApiSqliteMainPoolSize = c.getAuthApiSqliteMainPoolSize
    ∧ (c.setDevelopmentMode b).getAuthApiSqliteCollectionFilePath = c.getAuthApiSqliteCollectionFilePath
    ∧ (c.setDevelopmentMode b).getAuthApiSqliteCollectionPoolSize = c.getAuthApiSqliteCollectionPoolSize
    ∧ (c.setDevelopmentMode b).getAuthApiSqliteSessionFilePath = c.getAuthApiSqliteSessionFilePath
    ∧ (c.setDevelopmentMode b).getAuthApiSqliteSessionPoolSize = c.getAuthApiSqliteSessionPoolSize
    ∧ (c.setDevelopmentMode b).getAuthApiSessionSecret = c.getAuthApiSessionSecret
    ∧ (c.setDevelopmentMode b).getAuthApiSessionTtlSeconds = c.getAuthApiSessionTtlSeconds
    ∧ (c.setAuthApiSubdomain s).getAuthApiSubdomain = s
    ∧ (c.setAuthApiSubdomain s).getDomain = c.getDomain
    ∧ (c.setAuthApiSubdomain s).getApiPath = c.getApiPath
    ∧ (c.setAuthApiSubdomain s).getDevelopmentMode = c.getDevelopmentMode
    ∧ (c.setAuthApiSubdomain s).getAuthApiPort = c.getAuthApiPort
    ∧ (c.setAuthApiSubdomain s).getAuthApiProtocol = c.getAuthApiProtocol
    ∧ (c.setAuthApiSubdomain s).getAuthApiInsecureCookie = c.getAuthApiInsecureCookie
    ∧ (c.setAuthApiSubdomain s).getAuthApiSqliteMainFilePath = c.getAuthApiSqliteMainFilePath
    ∧ (c.setAuthApiSubdomain s).getAuthApiSqliteMainPoolSize = c.getAuthApiSqliteMainPoolSize
    ∧ (c.setAuthApiSubdomain s).getAuthApiSqliteCollectionFilePath = c.getAuthApiSqliteCollectionFilePath
    ∧ (c.setAuthApiSubdomain s).getAuthApiSqliteCollectionPoolSize = c.getAuthApiSqliteCollectionPoolSize
    ∧ (c.setAuthApiSubdomain s).getAuthApiSqliteSessionFilePath = c.getAuthApiSqliteSessionFilePath
    ∧ (c.setAuthApiSubdomain s).getAuthApiSqliteSessionPoolSize = c.getAuthApiSqliteSessionPoolSize
    ∧ (c.setAuthApiSubdomain s).getAuthApiSessionSecret = c.getAuthApiSessionSecret
    ∧ (c.setAuthApiSubdomain s).getAuthApiSessionTtlSeconds = c.getAuthApiSessionTtlSeconds
    ∧ (c.setAuthApiPort o).getAuthApiPort = o
    ∧ (c.setAuthApiPort o).getDomain = c.getDomain
    ∧ (c.setAuthApiPort o).getApiPath = c.getApiPath
    ∧ (c.setAuthApiPort o).getDevelopmentMode = c.getDevelopmentMode
    ∧ (c.setAuthApiPort o).getAuthApiSubdomain = c.getAuthApiSubdomain
    ∧ (c.setAuthApiPort o).getAuthApiProtocol = c.getAuthApiProtocol
    ∧ (c.setAuthApiPort o).getAuthApiInsecureCookie = c.getAuthApiInsecureCookie
    ∧ (c.setAuthApiPort o).getAuthApiSqliteMainFilePath = c.getAuthApiSqliteMainFilePath
    ∧ (c.setAuthApiPort o).getAuthApiSqliteMainPoolSize = c.getAuthApiSqliteMainPoolSize
    ∧ (c.setAuthApiPort o).getAuthApiSqliteCollectionFilePath = c.getAuthApiSqliteCollectionFilePath
    ∧ (c.setAuthApiPort o).getAuthApiSqliteCollectionPoolSize = c.getAuthApiSqliteCollectionPoolSize
    ∧ (c.setAuthApiPort o).getAuthApiSqliteSessionFilePath = c.getAuthApiSqliteSessionFilePath
    ∧ (c.setAuthApiPort o).getAuthApiSqliteSessionPoolSize = c.getAuthApiSqliteSessionPoolSize
    ∧ (c.setAuthApiPort o).getAuthApiSessionSecret = c.getAuthApiSessionSecret
    ∧ (c.setAuthApiPort o).getAuthApiSessionTtlSeconds = c.getAuthApiSessionTtlSeconds
    ∧ (c.setAuthApiProtocol s).getAuthApiProtocol = s
    ∧ (c.setAuthApiProtocol s).getDomain = c.getDomain
    ∧ (c.setAuthApiProtocol s).getApiPath = c.getApiPath
    ∧ (c.setAuthApiProtocol s).getDevelopmentMode = c.getDevelopmentMode
    ∧ (c.setAuthApiProtocol s).getAuthApiSubdomain = c.getAuthApiSubdomain
    ∧ (c.setAuthApiProtocol s).getAuthApiPort = c.getAuthApiPort
    ∧ (c.setAuthApiProtocol s).getAuthApiInsecureCookie = c.getAuthApiInsecureCookie
    ∧ (c.setAuthApiProtocol s).getAuthApiSqliteMainFilePath = c.getAuthApiSqliteMainFilePath
    ∧ (c.setAuthApiProtocol s).getAuthApiSqliteMainPoolSize = c.getAuthApiSqliteMainPoolSize
    ∧ (c.setAuthApiProtocol s).getAuthApiSqliteCollectionFilePath = c.getAuthApiSqliteCollectionFilePath
    ∧ (c.setAuthApiProtocol s).getAuthApiSqliteCollectionPoolSize = c.getAuthApiSqliteCollectionPoolSize
    ∧ (c.setAuthApiProtocol s).getAuthApiSqliteSessionFilePath = c.getAuthApiSqliteSessionFilePath
    ∧ (c.setAuthApiProtocol s).getAuthApiSqliteSessionPoolSize = c.getAuthApiSqliteSessionPoolSize
    ∧ (c.setAuthApiProtocol s).getAuthApiSessionSecret = c.getAuthApiSessionSecret
    ∧ (c.setAuthApiProtocol s).getAuthApiSessionTtlSeconds = c.getAuthApiSessionTtlSeconds
    ∧ (c.setAuthApiInsecureCookie b).getAuthApiInsecureCookie = b
    ∧ (c.setAuthApiInsecureCookie b).getDomain = c.getDomain
    ∧ (c.setAuthApiInsecureCookie b).getApiPath = c.getApiPath
    ∧ (c.setAuthApiInsecureCookie b).getDevelopmentMode = c.getDevelopmentMode
    ∧ (c.setAuthApiInsecureCookie b).getAuthApiSubdomain = c.getAuthApiSubdomain
    ∧ (c.setAuthApiInsecureCookie b).getAuthApiPort = c.getAuthApiPort
    ∧ (c.setAuthApiInsecureCookie b).getAuthApiProtocol = c.getAuthApiProtocol
    ∧ (c.setAuthApiInsecureCookie b).getAuthApiSqliteMainFilePath = c.getAuthApiSqliteMainFilePath
    ∧ (c.setAuthApiInsecureCookie b).getAuthApiSqliteMainPoolSize = c.getAuthApiSqliteMainPoolSize
    ∧ (c.setAuthApiInsecureCookie b).getAuthApiSqliteCollectionFilePath = c.getAuthApiSqliteCollectionFilePath
    ∧ (c.setAuthApiInsecureCookie b).getAuthApiSqliteCollectionPoolSize = c.getAuthApiSqliteCollectionPoolSize
    ∧ (c.setAuthApiInsecureCookie b).getAuthApiSqliteSessionFilePath = c.getAuthApiSqliteSessionFilePath
    ∧ (c.setAuthApiInsecureCookie b).getAuthApiSqliteSessionPoolSize = c.getAuthApiSqliteSessionPoolSize
    ∧ (c.setAuthApiInsecureCookie b).getAuthApiSessionSecret = c.getAuthApiSessionSecret
    ∧ (c.setAuthApiInsecureCookie b).getAuthApiSessionTtlSeconds = c.getAuthApiSessionTtlSeconds
    ∧ (c.setAuthApiSqliteMainFilePath s).getAuthApiSqliteMainFilePath = s
    ∧ (c.setAuthApiSqliteMainFilePath s).getDomain = c.getDomain
    ∧ (c.setAuthApiSqliteMainFilePath s).getApiPath = c.getApiPath
    ∧ (c.setAuthApiSqliteMainFilePath s).getDevelopmentMode = c.getDevelopmentMode
    ∧ (c.setAuthApiSqliteMainFilePath s).getAuthApiSubdomain = c.getAuthApiSubdomain
    ∧ (c.setAuthApiSqliteMainFilePath s).getAuthApiPort = c.getAuthApiPort
    ∧ (c.setAuthApiSqliteMainFilePath s).getAuthApiProtocol = c.getAuthApiProtocol
    ∧ (c.setAuthApiSqliteMainFilePath s).getAuthApiInsecureCookie = c.getAuthApiInsecureCookie
    ∧ (c.setAuthApiSqliteMainFilePath s).getAuthApiSqliteMainPoolSize = c.getAuthApiSqliteMainPoolSize
    ∧ (c.setAuthApiSqliteMainFilePath s).getAuthApiSqliteCollectionFilePath = c.getAuthApiSqliteCollectionFilePath
    ∧ (c.setAuthApiSqliteMainFilePath s).getAuthApiSqliteCollectionPoolSize = c.getAuthApiSqliteCollectionPoolSize
    ∧ (c.setAuthApiSqliteMainFilePath s).getAuthApiSqliteSessionFilePath = c.getAuthApiSqliteSessionFilePath
    ∧ (c.setAuthApiSqliteMainFilePath s).getAuthApiSqliteSessionPoolSize = c.getAuthApiSqliteSessionPoolSize
    ∧ (c.setAuthApiSqliteMainFilePath s).getAuthApiSessionSecret = c.getAuthApiSessionSecret
    ∧ (c.setAuthApiSqliteMainFilePath s).getAuthApiSessionTtlSeconds = c.getAuthApiSessionTtlSeconds
    ∧ (c.setAuthApiSqliteMainPoolSize (some n)).getAuthApiSqliteMainPoolSize = n
    ∧ (c.setAuthApiSqliteMainPoolSize (some n)).getDomain = c.getDomain
    ∧ (c.setAuthApiSqliteMainPoolSize (some n)).getApiPath = c.getApiPath
    ∧ (c.setAuthApiSqliteMainPoolSize (some n)).getDevelopmentMode = c.getDevelopmentMode
    ∧ (c.setAuthApiSqliteMainPoolSize (some n)).getAuthApiSubdomain = c.getAuthApiSubdomain
    ∧ (c.setAuthApiSqliteMainPoolSize (some n)).getAuthApiPort = c.getAuthApiPort
    ∧ (c.setAuthApiSqliteMainPoolSize (some n)).getAuthApiProtocol = c.getAuthApiProtocol
    ∧ (c.setAuthApiSqliteMainPoolSize (some n)).getAuthApiInsecureCookie = c.getAuthApiInsecureCookie
    ∧ (c.setAuthApiSqliteMainPoolSize (some n)).getAuthApiSqliteMainFilePath = c.getAuthApiSqliteMainFilePath
    ∧ (c.setAuthApiSqliteMainPoolSize (some n)).getAuthApiSqliteCollectionFilePath = c.getAuthApiSqliteCollectionFilePath
    ∧ (c.setAuthApiSqliteMainPoolSize (some n)).getAuthApiSqliteCollectionPoolSize = c.getAuthApiSqliteCollectionPoolSize
    ∧ (c.setAuthApiSqliteMainPoolSize (some n)).getAuthApiSqliteSessionFilePath = c.getAuthApiSqliteSessionFilePath
    ∧ (c.setAuthApiSqliteMainPoolSize (some n)).getAuthApiSqliteSessionPoolSize = c.getAuthApiSqliteSessionPoolSize
    ∧ (c.setAuthApiSqliteMainPoolSize (some n)).getAuthApiSessionSecret = c.getAuthApiSessionSecret
    ∧ (c.setAuthApiSqliteMainPoolSize (some n)).getAuthApiSessionTtlSeconds = c.getAuthApiSessionTtlSeconds
    ∧ (c.setAuthApiSqliteCollectionFilePath s).getAuthApiSqliteCollectionFilePath = s
    ∧ (c.setAuthApiSqliteCollectionFilePath s).getDomain = c.getDomain
    ∧ (c.setAuthApiSqliteCollectionFilePath s).getApiPath = c.getApiPath
    ∧ (c.setAuthApiSqliteCollectionFilePath s).getDevelopmentMode = c.getDevelopmentMode
    ∧ (c.setAuthApiSqliteCollectionFilePath s).getAuthApiSubdomain = c.getAuthApiSubdomain
    ∧ (c.setAuthApiSqliteCollectionFilePath s).getAuthApiPort = c.getAuthApiPort
    ∧ (c.setAuthApiSqliteCollectionFilePath s).getAuthApiProtocol = c.getAuthApiProtocol
    ∧ (c.setAuthApiSqliteCollectionFilePath s).getAuthApiInsecureCookie = c.getAuthApiInsecureCookie
    ∧ (c.setAuthApiSqliteCollectionFilePath s).getAuthApiSqliteMainFilePath = c.getAuthApiSqliteMainFilePath
    ∧ (c.setAuthApiSqliteCollectionFilePath s).getAuthApiSqliteMainPoolSize = c.getAuthApiSqliteMainPoolSize
    ∧ (c.setAuthApiSqliteCollectionFilePath s).getAuthApiSqliteCollectionPoolSize = c.getAuthApiSqliteCollectionPoolSize
    ∧ (c.setAuthApiSqliteCollectionFilePath s).getAuthApiSqliteSessionFilePath = c.getAuthApiSqliteSessionFilePath
    ∧ (c.setAuthApiSqliteCollectionFilePath s).getAuthApiSqliteSessionPoolSize = c.getAuthApiSqliteSessionPoolSize
    ∧ (c.setAuthApiSqliteCollectionFilePath s).getAuthApiSessionSecret = c.getAuthApiSessionSecret
    ∧ (c.setAuthApiSqliteCollectionFilePath s).getAuthApiSessionTtlSeconds = c.getAuthApiSessionTtlSeconds
    ∧ (c.setAuthApiSqliteCollectionPoolSize (some n)).getAuthApiSqliteCollectionPoolSize = n
    ∧ (c.setAuthApiSqliteCollectionPoolSize (some n)).getDomain = c.getDomain
    ∧ (c.setAuthApiSqliteCollectionPoolSize (some n)).getApiPath = c.getApiPath
    ∧ (c.setAuthApiSqliteCollectionPoolSize (some n)).getDevelopmentMode = c.getDevelopmentMode
    ∧ (c.setAuthApiSqliteCollectionPoolSize (some n)).getAuthApiSubdomain = c.getAuthApiSubdomain
    ∧ (c.setAuthApiSqliteCollectionPoolSize (some n)).getAuthApiPort = c.getAuthApiPort
    ∧ (c.setAuthApiSqliteCollectionPoolSize (some n)).getAuthApiProtocol = c.getAuthApiProtocol
    ∧ (c.setAuthApiSqliteCollectionPoolSize (some n)).getAuthApiInsecureCookie = c.getAuthApiInsecureCookie
    ∧ (c.setAuthApiSqliteCollectionPoolSize (some n)).getAuthApiSqliteMainFilePath = c.getAuthApiSqliteMainFilePath
    ∧ (c.setAuthApiSqliteCollectionPoolSize (some n)).getAuthApiSqliteMainPoolSize = c.getAuthApiSqliteMainPoolSize
    ∧ (c.setAuthApiSqliteCollectionPoolSize (some n)).getAuthApiSqliteCollectionFilePath = c.getAuthApiSqliteCollectionFilePath
    ∧ (c.setAuthApiSqliteCollectionPoolSize (some n)).getAuthApiSqliteSessionFilePath = c.getAuthApiSqliteSessionFilePath
    ∧ (c.setAuthApiSqliteCollectionPoolSize (some n)).getAuthApiSqliteSessionPoolSize = c.getAuthApiSqliteSessionPoolSize
    ∧ (c.setAuthApiSqliteCollectionPoolSize (some n)).getAuthApiSessionSecret = c.getAuthApiSessionSecret
    ∧ (c.setAuthApiSqliteCollectionPoolSize (some n)).getAuthApiSessionTtlSeconds = c.getAuthApiSessionTtlSeconds
    ∧ (c.setAuthApiSqliteSessionFilePath s).getAuthApiSqliteSessionFilePath = s
    ∧ (c.setAuthApiSqliteSessionFilePath s).getDomain = c.getDomain
    ∧ (c.setAuthApiSqliteSessionFilePath s).getApiPath = c.getApiPath
    ∧ (c.setAuthApiSqliteSessionFilePath s).getDevelopmentMode = c.getDevelopmentMode
    ∧ (c.setAuthApiSqliteSessionFilePath s).getAuthApiSubdomain = c.getAuthApiSubdomain
    ∧ (c.setAuthApiSqliteSessionFilePath s).getAuthApiPort = c.getAuthApiPort
    ∧ (c.setAuthApiSqliteSessionFilePath s).getAuthApiProtocol = c.getAuthApiProtocol
    ∧ (c.setAuthApiSqliteSessionFilePath s).getAuthApiInsecureCookie = c.getAuthApiInsecureCookie
    ∧ (c.setAuthApiSqliteSessionFilePath s).getAuthApiSqliteMainFilePath = c.getAuthApiSqliteMainFilePath
    ∧ (c.setAuthApiSqliteSessionFilePath s).getAuthApiSqliteMainPoolSize = c.getAuthApiSqliteMainPoolSize
    ∧ (c.setAuthApiSqliteSessionFilePath s).getAuthApiSqliteCollectionFilePath = c.getAuthApiSqliteCollectionFilePath
    ∧ (c.setAuthApiSqliteSessionFilePath s).getAuthApiSqliteCollectionPoolSize = c.getAuthApiSqliteCollectionPoolSize
    ∧ (c.setAuthApiSqliteSessionFilePath s).getAuthApiSqliteSessionPoolSize = c.getAuthApiSqliteSessionPoolSize
    ∧ (c.setAuthApiSqliteSessionFilePath s).getAuthApiSessionSecret = c.getAuthApiSessionSecret
    ∧ (c.setAuthApiSqliteSessionFilePath s).getAuthApiSessionTtlSeconds = c.getAuthApiSessionTtlSeconds
    ∧ (c.setAuthApiSqliteSessionPoolSize (some n)).getAuthApiSqliteSessionPoolSize = n
    ∧ (c.setAuthApiSqliteSessionPoolSize (some n)).getDomain = c.getDomain
    ∧ (c.setAuthApiSqliteSessionPoolSize (some n)).getApiPath = c.getApiPath
    ∧ (c.setAuthApiSqliteSessionPoolSize (some n)).getDevelopmentMode = c.getDevelopmentMode
    ∧ (c.setAuthApiSqliteSessionPoolSize (some n)).getAuthApiSubdomain = c.getAuthApiSubdomain
    ∧ (c.setAuthApiSqliteSessionPoolSize (some n)).getAuthApiPort = c.getAuthApiPort
    ∧ (c.setAuthApiSqliteSessionPoolSize (some n)).getAuthApiProtocol = c.getAuthApiProtocol
    ∧ (c.setAuthApiSqliteSessionPoolSize (some n)).getAuthApiInsecureCookie = c.getAuthApiInsecureCookie
    ∧ (c.setAuthApiSqliteSessionPoolSize (some n)).getAuthApiSqliteMainFilePath = c.getAuthApiSqliteMainFilePath
    ∧ (c.setAuthApiSqliteSessionPoolSize (some n)).getAuthApiSqliteMainPoolSize = c.getAuthApiSqliteMainPoolSize
    ∧ (c.setAuthApiSqliteSessionPoolSize (some n)).getAuthApiSqliteCollectionFilePath = c.getAuthApiSqliteCollectionFilePath
    ∧ (c.setAuthApiSqliteSessionPoolSize (some n)).getAuthApiSqliteCollectionPoolSize = c.getAuthApiSqliteCollectionPoolSize
    ∧ (c.setAuthApiSqliteSessionPoolSize (some n)).getAuthApiSqliteSessionFilePath = c.getAuthApiSqliteSessionFilePath
    ∧ (c.setAuthApiSqliteSessionPoolSize (some n)).getAuthApiSessionSecret = c.getAuthApiSessionSecret
    ∧ (c.setAuthApiSqliteSessionPoolSize (some n)).getAuthApiSessionTtlSeconds = c.getAuthApiSessionTtlSeconds
    ∧ (c.setAuthApiSessionSecret os).getAuthApiSessionSecret = os
    ∧ (c.setAuthApiSessionSecret os).getDomain = c.getDomain
    ∧ (c.setAuthApiSessionSecret os).getApiPath = c.getApiPath
    ∧ (c.setAuthApiSessionSecret os).getDevelopmentMode = c.getDevelopmentMode
    ∧ (c.setAuthApiSessionSecret os).getAuthApiSubdomain = c.getAuthApiSubdomain
    ∧ (c.setAuthApiSessionSecret os).getAuthApiPort = c.getAuthApiPort
    ∧ (c.setAuthApiSessionSecret os).getAuthApiProtocol = c.getAuthApiProtocol
    ∧ (c.setAuthApiSessionSecret os).getAuthApiInsecureCookie = c.getAuthApiInsecureCookie
    ∧ (c.setAuthApiSessionSecret os).getAuthApiSqliteMainFilePath = c.getAuthApiSqliteMainFilePath
    ∧ (c.setAuthApiSessionSecret os).getAuthApiSqliteMainPoolSize = c.getAuthApiSqliteMainPoolSize
    ∧ (c.setAuthApiSessionSecret os).getAuthApiSqliteCollectionFilePath = c.getAuthApiSqliteCollectionFilePath
    ∧ (c.setAuthApiSessionSecret os).getAuthApiSqliteCollectionPoolSize = c.getAuthApiSqliteCollectionPoolSize
    ∧ (c.setAuthApiSessionSecret os).getAuthApiSqliteSessionFilePath = c.getAuthApiSqliteSessionFilePath
    ∧ (c.setAuthApiSessionSecret os).getAuthApiSqliteSessionPoolSize = c.getAuthApiSqliteSessionPoolSize
    ∧ (c.setAuthApiSessionSecret os).getAuthApiSessionTtlSeconds = c.getAuthApiSessionTtlSeconds
    ∧ (c.setAuthApiSessionTtlSeconds (some n)).getAuthApiSessionTtlSeconds = n
    ∧ (c.setAuthApiSessionTtlSeconds (some n)).getDomain = c.getDomain
    ∧ (c.setAuthApiSessionTtlSeconds (some n)).getApiPath = c.getApiPath
    ∧ (c.setAuthApiSessionTtlSeconds (some n)).getDevelopmentMode = c.getDevelopmentMode
    ∧ (c.setAuthApiSessionTtlSeconds (some n)).getAuthApiSubdomain = c.getAuthApiSubdomain
    ∧ (c.setAuthApiSessionTtlSeconds (some n)).getAuthApiPort = c.getAuthApiPort
    ∧ (c.setAuthApiSessionTtlSeconds (some n)).getAuthApiProtocol = c.getAuthApiProtocol
    ∧ (c.setAuthApiSessionTtlSeconds (some n)).getAuthApiInsecureCookie = c.getAuthApiInsecureCookie
    ∧ (c.setAuthApiSessionTtlSeconds (some n)).getAuthApiSqliteMainFilePath = c.getAuthApiSqliteMainFilePath
    ∧ (c.setAuthApiSessionTtlSeconds (some n)).getAuthApiSqliteMainPoolSize = c.getAuthApiSqliteMainPoolSize
    ∧ (c.setAuthApiSessionTtlSeconds (some n)).getAuthApiSqliteCollectionFilePath = c.getAuthApiSqliteCollectionFilePath
    ∧ (c.setAuthApiSessionTtlSeconds (some n)).getAuthApiSqliteCollectionPoolSize = c.getAuthApiSqliteCollectionPoolSize
    ∧ (c.setAuthApiSessionTtlSeconds (some n)).getAuthApiSqliteSessionFilePath = c.getAuthApiSqliteSessionFilePath
    ∧ (c.setAuthApiSessionTtlSeconds (some n)).getAuthApiSqliteSessionPoolSize = c.getAuthApiSqliteSessionPoolSize
    ∧ (c.setAuthApiSessionTtlSeconds (some n)).getAuthApiSessionSecret = c.getAuthApiSessionSecret := by
  exact ⟨rfl, rfl, rfl, rfl, rfl, rfl, rfl, rfl, rfl, rfl, rfl, rfl, rfl, rfl, rfl, rfl, rfl, rfl, rfl, rfl, rfl, rfl, rfl, rfl, rfl, rfl, rfl, rfl, rfl, rfl, rfl, rfl, rfl, rfl, rfl, rfl, rfl, rfl, rfl, rfl, rfl, rfl, rfl, rfl, rfl, rfl, rfl, rfl, rfl, rfl, rfl, rfl, rfl, rfl, rfl, rfl, rfl, rfl, rfl, rfl, rfl, rfl, rfl, rfl, rfl, rfl, rfl, rfl, rfl, rfl, rfl, rfl, rfl, rfl, rfl, rfl, rfl, rfl, rfl, rfl, rfl, rfl, rfl, rfl, rfl, rfl, rfl, rfl, rfl, rfl, rfl, rfl, rfl, rfl, rfl, rfl, rfl, rfl, rfl, rfl, rfl, rfl, rfl, rfl, rfl, rfl, rfl, rfl, rfl, rfl, rfl, rfl, rfl, rfl, rfl, rfl, rfl, rfl, rfl, rfl, rfl, rfl, rfl, rfl, rfl, rfl, rfl, rfl, rfl, rfl, rfl, rfl, rfl, rfl, rfl, rfl, rfl, rfl, rfl, rfl, rfl, rfl, rfl, rfl, rfl, rfl, rfl, rfl, rfl, rfl, rfl, rfl, rfl, rfl, rfl, rfl, rfl, rfl, rfl, rfl, rfl, rfl, rfl, rfl, rfl, rfl, rfl, rfl, rfl, rfl, rfl, rfl, rfl, rfl, rfl, rfl, rfl, rfl, rfl, rfl, rfl, rfl, rfl, rfl, rfl, rfl, rfl, rfl, rfl, rfl, rfl, rfl, rfl, rfl, rfl, rfl, rfl, rfl, rfl, rfl, rfl, rfl, rfl, rfl, rfl, rfl, rfl, rfl, rfl, rfl, rfl, rfl, rfl, rfl, rfl, rfl, rfl, rfl, rfl, rfl, rfl, rfl, rfl, rfl, rfl⟩

/-- C8: no operation signals an error.  In the embedding every operation of
the component is a total function (the constructor, the getters, the setters
and the two derived computations all live outside any error monad), so the
claim reduces to the fact that malformed input degrades to the unset state
rather than escaping: a present-but-unparsable numeric value loads as unset
and the getter falls back to its default, and construction yields a store for
every environment and prefix. -/
theorem claim_C8_no_failure (env : Env) (pfx : String) (c : DpsConfig) :
    (∃ cfg : DpsConfig, DpsConfig.ofEnv env pfx = cfg)
    ∧ (∃ u : String, c.getAuthApiUrl = u)
    ∧ (∃ r : Option (List Nat), c.getAuthApiSessionSecretBytes = r)
    ∧ (∀ key v, env (pfx ++ key) = some v → jsParseInt10 v = none →
        loadEnvNumber env pfx key = none)
    ∧ (∀ key, loadEnvNumber env pfx key = none ∨
        ∃ m : Int, loadEnvNumber env pfx key = some m)
    ∧ (env (pfx ++ "DPS_AUTH_API_SESSION_TTL_SECONDS") = some "two weeks" →
        (DpsConfig.ofEnv env pfx).getAuthApiSessionTtlSeconds = 1209600) := by
  refine ⟨⟨_, rfl⟩, ⟨_, rfl⟩, ⟨_, rfl⟩, ?_, ?_, ?_⟩
  · intro key v hv hp
    unfold loadEnvNumber
    rw [hv]
    show (if v.length = 0 then none else jsParseInt10 v) = none
    by_cases hlen : v.length = 0
    · rw [if_pos hlen]
    · rw [if_neg hlen, hp]
  · intro key
    cases loadEnvNumber env pfx key with
    | none => exact Or.inl rfl
    | some m => exact Or.inr ⟨m, rfl⟩
  · intro h
    have hload : loadEnvNumber env pfx "DPS_AUTH_API_SESSION_TTL_SECONDS" = none := by
      unfold loadEnvNumber
      rw [h]
      decide
    show (loadEnvNumber env pfx "DPS_AUTH_API_SESSION_TTL_SECONDS").getD 1209600 = 1209600
    rw [hload]
    rfl

/-- Witness for C8 at a concrete environment holding a malformed TTL value:
construction succeeds and the getter returns the default. -/
theorem claim_C8_no_failure_witness :
    (DpsConfig.ofEnv (Env.override envAllAbsent "DPS_AUTH_API_SESSION_TTL_SECONDS"
        (some "two weeks")) "").getAuthApiSessionTtlSeconds = 1209600 :=
  (claim_C8_no_failure
    (Env.override envAllAbsent "DPS_AUTH_API_SESSION_TTL_SECONDS" (some "two weeks")) ""
    (DpsConfig.ofEnv envAllAbsent "")).2.2.2.2.2 (by decide)

/-- C9: a string setter called with the empty string stores the empty string,
and the getter then returns `""` rather than the default; in contrast an
empty-string environment value at construction still yields the default. -/
theorem claim_C9_setter_empty_string (c : DpsConfig) (env : Env) (pfx : String) :
    (c.setDomain "").getDomain = ""
    ∧ (c.setApiPath "").getApiPath = ""
    ∧ (c.setAuthApiSubdomain "").getAuthApiSubdomain = ""
    ∧ (c.setAuthApiProtocol "").getAuthApiProtocol = ""
    ∧ (c.setAuthApiSqliteMainFilePath "").getAuthApiSqliteMainFilePath = ""
    ∧ (c.setAuthApiSqliteCollectionFilePath "").getAuthApiSqliteCollectionFilePath = ""
    ∧ (c.setAuthApiSqliteSessionFilePath "").getAuthApiSqliteSessionFilePath = ""
    ∧ (DpsConfig.ofEnv (Env.override env (pfx ++ "DPS_DOMAIN") (some "")) pfx).getDomain
        = "dps.localhost" := by
  refine ⟨rfl, rfl, rfl, rfl, rfl, rfl, rfl, ?_⟩
  show (loadEnvString (Env.override env (pfx ++ "DPS_DOMAIN") (some "")) pfx
      "DPS_DOMAIN").getD "dps.localhost" = "dps.localhost"
  unfold loadEnvString Env.override
  simp

/-- C10: the integer-typed setters also accept the explicit unset value, after
which the getter returns the documented default again (or the absent signal
for the port); the optional secret setter likewise accepts unset. -/
theorem claim_C10_setter_undefined_reverts (c : DpsConfig) :
    (c.setAuthApiSqliteMainPoolSize none).getAuthApiSqliteMainPoolSize = 1
    ∧ (c.setAuthApiSqliteCollectionPoolSize none).getAuthApiSqliteCollectionPoolSize = 1
    ∧ (c.setAuthApiSqliteSessionPoolSize none).getAuthApiSqliteSessionPoolSize = 1
    ∧ (c.setAuthApiSessionTtlSeconds none).getAuthApiSessionTtlSeconds = 1209600
    ∧ (c.setAuthApiPort none).getAuthApiPort = none
    ∧ (c.setAuthApiSessionSecret none).getAuthApiSessionSecret = none := by
  exact ⟨rfl, rfl, rfl, rfl, rfl, rfl⟩

end DpsConfigModel
